import Mathlib

/-!
Verification of the backend proxy server (src/server.js and src/unnamed/part_000)
against its natural-language specification.

The JavaScript handlers are shallowly embedded as pure Lean functions:
upstream HTTP calls become `Except`-valued parameters supplied by the caller
(the value the upstream would have produced, or the thrown error message),
the process-wide token cache becomes an explicit `TokenCache` state that is
threaded through, and JS truthiness on strings/numbers is modelled explicitly
(`"" `and `0` are falsy).  Where a handler issues upstream calls we also
return the number of upstream requests it made, so cache/no-call properties
can be stated.
-/

namespace Proxy

/-- JS truthiness of an optional string: `undefined`/`null` and `""` are falsy. -/
def truthyS : Option String → Bool
  | none => false
  | some s => s != ""

/-!
## Token cache (src/server.js lines 31-70)

`let cachedToken = null; let tokenExpiry = null;` and `getAccessToken()`.
Times are in milliseconds (`Date.now()`), modelled as `Int`.
-/

/-- The process-wide mutable token cache of src/server.js. -/
structure TokenCache where
  cachedToken : Option String
  tokenExpiry : Option Int
deriving DecidableEq

/-- The guard `cachedToken && tokenExpiry && Date.now() < tokenExpiry - 300000`
(server.js line 40), with JS truthiness of the string and the number. -/
def cacheValid (st : TokenCache) (now : Int) : Bool :=
  match st.cachedToken, st.tokenExpiry with
  | some t, some exp => t != "" && exp != 0 && decide (now < exp - 300000)
  | _, _ => false

/-- Function `getAccessToken()` (server.js lines 38-70).  `upstream` is the outcome the
token-issue endpoint would produce on this call (`ok token` or a thrown error
message).  Returns the function's result, the cache state after the call, and
how many upstream login requests were issued (0 or 1). -/
def getAccessToken (st : TokenCache) (now : Int) (upstream : Except String String) :
    Except String String × TokenCache × Nat :=
  if cacheValid st now then
    (Except.ok (st.cachedToken.getD ""), st, 0)
  else
    match upstream with
    | Except.ok tok =>
        (Except.ok tok, { cachedToken := some tok, tokenExpiry := some (now + 24 * 60 * 60 * 1000) }, 1)
    | Except.error e => (Except.error e, st, 1)

/-!
## Forgot password (src/server.js lines 1615-1655)
-/

/-- Normalized route response: HTTP status, the `success` flag, and a message. -/
structure SimpleResponse where
  status : Nat
  success : Bool
  message : String
deriving DecidableEq

/-- Route `POST /api/clients/forgot-password` (server.js lines 1615-1655): the
upstream `sendpasswordresetemail` call either succeeds or throws; both
branches respond 200 with `success: true`. -/
def forgotPassword (upstream : Except String Unit) : SimpleResponse :=
  match upstream with
  | Except.ok _ => { status := 200, success := true, message := "Email de recuperación enviado" }
  | Except.error _ =>
      { status := 200, success := true, message := "Si el email existe, recibirás un enlace de recuperación" }

/-!
## Bookable items: data model and pagination (src/server.js lines 1100-1228)
-/

/-- The `Staff` object embedded in an availability item. -/
structure Staff where
  id : Nat
  firstName : String
  lastName : String
deriving DecidableEq

/-- One availability (bookable slot) returned by the upstream
`/appointment/bookableitems` endpoint; `Staff` may be absent. -/
structure Availability where
  staff : Option Staff
  startDateTime : String
  endDateTime : String
deriving DecidableEq

/-- The pagination `while` loop (server.js lines 1140-1161): while
`offset < totalResults && offset < 1000`, fetch the page at `offset` with
fixed `limit = 100`; a fetch error or an empty page breaks the loop;
otherwise the page is appended and `offset` grows by the page length.
Returns the accumulated items and the number of page requests issued. -/
def pageLoop (fetch : Nat → Except String (List Availability)) (total : Nat)
    (acc : List Availability) (offset : Nat) : List Availability × Nat :=
  if h : offset < total ∧ offset < 1000 then
    match fetch offset with
    | Except.error _ => (acc, 1)
    | Except.ok page =>
      if hp : page.length = 0 then (acc, 1)
      else
        let r := pageLoop fetch total (acc ++ page) (offset + page.length)
        (r.1, r.2 + 1)
  else (acc, 0)
termination_by 1000 - offset
decreasing_by omega

/-- JS `firstData.PaginationResponse?.TotalResults || allAvailabilities.length`
(server.js line 1131): a missing or zero (falsy) declared total falls back to
the first page's length. -/
def totalOrLen (totalOpt : Option Nat) (len : Nat) : Nat :=
  match totalOpt with
  | some n => if n = 0 then len else n
  | none => len

/-- The bookable-items fetch phase (server.js lines 1127-1162): the first
upstream call returns the first page and the optional declared total; if the
declared total exceeds what was fetched, the pagination loop runs.  Returns
the collected availabilities, the declared total, and the overall number of
upstream `bookableitems` calls; a failure of the first call propagates. -/
def bookableItemsCore (first : Except String (List Availability × Option Nat))
    (fetch : Nat → Except String (List Availability)) :
    Except String (List Availability × Nat × Nat) :=
  match first with
  | Except.error e => Except.error e
  | Except.ok (items0, totalOpt) =>
    let totalResults := totalOrLen totalOpt items0.length
    if totalResults > items0.length then
      let r := pageLoop fetch totalResults items0 items0.length
      Except.ok (r.1, totalResults, r.2 + 1)
    else
      Except.ok (items0, totalResults, 1)

/-!
## Bookable-items route and staff-with-availability route (src/server.js)
-/

/-- Route `GET /api/bookable-items` (server.js lines 1100-1228).  The handler
never validates `sessionTypeIds`: the parameter is appended to the upstream
query only when truthy (lines 1108-1111) and the first upstream call is always
issued.  The 200 response carries the collected items; a thrown first call
becomes a 500.  The second component is the number of upstream
`bookableitems` calls issued. -/
def bookableItemsRoute (sessionTypeIds : Option String)
    (first : Except String (List Availability × Option Nat))
    (fetch : Nat → Except String (List Availability)) : SimpleResponse × Nat :=
  match bookableItemsCore first fetch with
  | Except.error msg => ({ status := 500, success := false, message := msg }, 1)
  | Except.ok (_, _, calls) => ({ status := 200, success := true, message := "" }, calls)

/-- Route `GET /api/staff-with-availability` (server.js lines 1236-1312): a
missing (falsy) `sessionTypeIds` answers 400 `success: false` before any
upstream call (lines 1241-1246); otherwise one upstream bookableitems call is
made, a throw becoming a 500.  The derived staff list of the 200 body is the
same deduplication modelled by `buildStaffMap` below and is elided here.  The
second component counts upstream calls. -/
def staffWithAvailabilityRoute (sessionTypeIds : Option String)
    (up : Except String (List Availability)) : SimpleResponse × Nat :=
  if !truthyS sessionTypeIds then
    ({ status := 400, success := false, message := "sessionTypeIds is required" }, 0)
  else
    match up with
    | Except.ok _ => ({ status := 200, success := true, message := "" }, 1)
    | Except.error msg => ({ status := 500, success := false, message := msg }, 1)

/-!
## Staff deduplication (src/server.js lines 1174-1204 and 1266-1292)
-/

/-- A value of the `staffMap` built by the bookable-items handler
(server.js lines 1174-1196): staff fields from the first item seen for that
id, plus the accumulated slot list. -/
structure StaffEntry where
  id : Nat
  firstName : String
  lastName : String
  slots : List (String × String)
deriving DecidableEq

/-- One step of the `staffMap` construction (lines 1176-1195): a new staff id
is appended with a one-slot list; an existing entry gets the slot pushed. -/
def addSlot (m : List StaffEntry) (s : Staff) (slot : String × String) : List StaffEntry :=
  if m.any (fun e => e.id == s.id) then
    m.map (fun e => if e.id == s.id then { e with slots := e.slots ++ [slot] } else e)
  else
    m ++ [{ id := s.id, firstName := s.firstName, lastName := s.lastName, slots := [slot] }]

/-- The insertion-ordered `staffMap` (lines 1174-1196); items without a
`Staff` object are skipped. -/
def buildStaffMap (items : List Availability) : List StaffEntry :=
  items.foldl
    (fun m it =>
      match it.staff with
      | none => m
      | some s => addSlot m s (it.startDateTime, it.endDateTime))
    []

/-- Stable insertion of one `(entry, slot count)` pair into a list already
sorted by descending count — one step of the stable JS
`sort((a, b) => b.availableSlots - a.availableSlots)` (line 1204). -/
def insertDesc (x : StaffEntry × Nat) : List (StaffEntry × Nat) → List (StaffEntry × Nat)
  | [] => [x]
  | y :: ys => if y.2 < x.2 then x :: y :: ys else y :: insertDesc x ys

/-- Stable sort by descending slot count (line 1204). -/
def sortBySlotsDesc : List (StaffEntry × Nat) → List (StaffEntry × Nat)
  | [] => []
  | x :: xs => insertDesc x (sortBySlotsDesc xs)

/-- Lines 1199-1204: each staff entry paired with its `availableSlots`
(= slot count), sorted descending by count. -/
def staffWithAvailability (items : List Availability) : List (StaffEntry × Nat) :=
  sortBySlotsDesc ((buildStaffMap items).map (fun e => (e, e.slots.length)))

/-- Shape invariant of the `staffMap` while folding over items whose staff is
either `A` or `B`: the accumulator is one of the five possible association
lists, with slot-list lengths equal to the counts of `A`- and `B`-items
processed so far. -/
def StaffMapShape (A B : Staff) (m : List StaffEntry) (ca cb : Nat) : Prop :=
  (ca = 0 ∧ cb = 0 ∧ m = [])
  ∨ (0 < ca ∧ cb = 0 ∧ ∃ sa : List (String × String), sa.length = ca ∧
      m = [{ id := A.id, firstName := A.firstName, lastName := A.lastName, slots := sa }])
  ∨ (ca = 0 ∧ 0 < cb ∧ ∃ sb : List (String × String), sb.length = cb ∧
      m = [{ id := B.id, firstName := B.firstName, lastName := B.lastName, slots := sb }])
  ∨ (0 < ca ∧ 0 < cb ∧ ∃ (sa sb : List (String × String)), sa.length = ca ∧ sb.length = cb ∧
      (m = [{ id := A.id, firstName := A.firstName, lastName := A.lastName, slots := sa },
            { id := B.id, firstName := B.firstName, lastName := B.lastName, slots := sb }]
       ∨ m = [{ id := B.id, firstName := B.firstName, lastName := B.lastName, slots := sb },
              { id := A.id, firstName := A.firstName, lastName := A.lastName, slots := sa }]))

/-!
## Login, registration and client routes
-/

/-- JS `a || b` for an optional string `a` and a default `b` (empty strings
are falsy). -/
def jsOrStr (a : Option String) (b : String) : String :=
  match a with
  | some s => if s != "" then s else b
  | none => b

/-- JS `a || b` where both operands are optional strings. -/
def jsOrOpt (a b : Option String) : Option String :=
  match a with
  | some s => if s != "" then some s else b
  | none => b

/-- Character-wise lower-casing: JS `toLowerCase` on the ASCII strings
involved here. -/
def lowerStr (s : String) : String := String.mk (s.toList.map Char.toLower)

/-- Prefix test on character lists. -/
def listPre : List Char → List Char → Bool
  | [], _ => true
  | _ :: _, [] => false
  | a :: as, b :: bs => a == b && listPre as bs

/-- Occurrence test of `pat` inside a character list. -/
def listSub (pat : List Char) : List Char → Bool
  | [] => pat.isEmpty
  | c :: rest => listPre pat (c :: rest) || listSub pat rest

/-- JS `s.includes(pat)`. -/
def strIncludes (s pat : String) : Bool := listSub pat.toList s.toList

/-- Response of a login route: status, `success` flag, token field, message. -/
structure TokenResponse where
  status : Nat
  success : Bool
  token : Option String
  message : String
deriving DecidableEq

/-- Route `POST /api/auth/login` of src/unnamed/part_000 (lines 96-134).
Missing (falsy) username or password answers 400 before any upstream call;
otherwise the upstream `/usertoken/issue` outcome `up` is either a thrown
error message (part_000's `callMindbodyAPI` throws on any non-2xx status,
lines 55-61) answered with 500, or a parsed body whose optional `AccessToken`
is checked for truthiness: truthy gives 200 with the token, falsy gives 401.
The second component counts upstream calls. -/
def loginPart0 (username password : Option String) (up : Except String (Option String)) :
    TokenResponse × Nat :=
  if !truthyS username || !truthyS password then
    ({ status := 400, success := false, token := none,
       message := "Username and password required" }, 0)
  else
    match up with
    | Except.ok tok =>
        if truthyS tok then
          ({ status := 200, success := true, token := tok, message := "Login successful" }, 1)
        else
          ({ status := 401, success := false, token := none, message := "Invalid credentials" }, 1)
    | Except.error msg =>
        ({ status := 500, success := false, token := none, message := msg }, 1)

/-- Route `POST /api/auth/login` of src/server.js (lines 792-820): no input
validation; upstream success passes `AccessToken` through with 200, any
axios error answers 401 with the upstream `Error.Message` when present. -/
def loginServer (username password : Option String)
    (up : Except (Option String) (Option String)) : TokenResponse :=
  match up with
  | Except.ok tok => { status := 200, success := true, token := tok, message := "" }
  | Except.error m =>
      { status := 401, success := false, token := none,
        message := jsOrStr m "Authentication failed" }

/-- Body fields checked by the register route. -/
structure RegisterInput where
  firstName : Option String
  lastName : Option String
  email : Option String
deriving DecidableEq

/-- The catch block of `POST /api/auth/register` (part_000 lines 194-210):
an error message containing (case-insensitively, via `toLowerCase`) "409",
"duplicate" or "already exists" maps to HTTP 409; anything else to 500 with
the message (or a fallback when the message is falsy). -/
def registerCatch (msg : String) : SimpleResponse :=
  let errorMessage := lowerStr msg
  if strIncludes errorMessage "409" || strIncludes errorMessage "duplicate"
      || strIncludes errorMessage "already exists" then
    { status := 409, success := false,
      message := "An account with this email already exists. Please login instead." }
  else
    { status := 500, success := false, message := jsOrStr (some msg) "Registration failed" }

/-- Route `POST /api/auth/register` (part_000 lines 137-211).  Missing first
name, last name or email answers 400 before any upstream call.  `up` is the
upstream `/client/addclient` outcome: a thrown error message, or a parsed
body whose optional `Client` id is checked — an upstream 2xx body without a
`Client` throws `Failed to create client account` into the same catch block.
The second component counts upstream calls. -/
def register (inp : RegisterInput) (up : Except String (Option Nat)) : SimpleResponse × Nat :=
  if !truthyS inp.firstName || !truthyS inp.lastName || !truthyS inp.email then
    ({ status := 400, success := false,
       message := "First name, last name, and email are required" }, 0)
  else
    match up with
    | Except.ok (some _) =>
        ({ status := 200, success := true,
           message := "Registration successful! Please check your email for login instructions." }, 1)
    | Except.ok none => (registerCatch "Failed to create client account", 1)
    | Except.error msg => (registerCatch msg, 1)

/-- Route `POST /api/clients` (server.js lines 1660-1722): the body is
translated and sent to `/client/addclient`; the catch block (lines 1715-1721)
maps every upstream failure to HTTP 500 — there is no conflict mapping on
this route. -/
def addClientRoute (up : Except String Unit) : SimpleResponse :=
  match up with
  | Except.ok _ => { status := 200, success := true, message := "" }
  | Except.error msg => { status := 500, success := false, message := msg }

/-!
## Client login (src/server.js lines 1537-1610)
-/

/-- An upstream client record; `Email` may be absent. -/
structure Client where
  id : Nat
  email : Option String
  firstName : String
  lastName : String
deriving DecidableEq

/-- JS `c.Email && c.Email.toLowerCase() === username.toLowerCase()`
(server.js lines 1578-1580). -/
def emailMatches (c : Client) (username : String) : Bool :=
  match c.email with
  | none => false
  | some e => e != "" && (lowerStr e == lowerStr username)

/-- Upstream state seen by the client-login route: the `/usertoken/issue`
outcome used when the request carries no token, and the client-search
outcome. -/
structure ClientLoginUpstream where
  tokenResult : Except String String
  searchResult : Except String (List Client)

/-- Response of the client-login route. -/
structure ClientLoginResponse where
  status : Nat
  success : Bool
  client : Option Client
deriving DecidableEq

/-- Route `POST /api/clients/login` (server.js lines 1537-1610): acquire a
staff token when the request has none, search clients by the submitted
username, and treat a case-insensitive exact email match as success (200)
— no match answers 401 and any throw answers 500.  The `password` body field
is destructured but never used. -/
def clientsLogin (userToken : Option String) (username password : String)
    (up : ClientLoginUpstream) : ClientLoginResponse :=
  let doSearch : ClientLoginResponse :=
    match up.searchResult with
    | Except.error _ => { status := 500, success := false, client := none }
    | Except.ok clients =>
      match clients.find? (fun c => emailMatches c username) with
      | some c => { status := 200, success := true, client := some c }
      | none => { status := 401, success := false, client := none }
  if truthyS userToken then doSearch
  else
    match up.tokenResult with
    | Except.error _ => { status := 500, success := false, client := none }
    | Except.ok _ => doSearch

/-!
## Session types and category exclusion (src/server.js lines 846-1013)
-/

/-- An upstream session type, with the fields the handler reads.  The JS
field `Type` is called `typeField` here. -/
structure SessionType where
  id : Nat
  name : String
  typeField : String
  programId : Nat
  onlineDescription : Option String
  description : Option String
deriving DecidableEq

/-- An enriched session type (server.js lines 966-974). -/
structure EnrichedType where
  base : SessionType
  categoryName : Option String
  price : Option Rat
  description : Option String
deriving DecidableEq

/-- The generic category names excluded from the final list (line 948). -/
def excludedCategories : List String := ["Appointment", "Appointments", "Service", "Services"]

/-- JS `programs[st.ProgramId] || null` (line 969); the `programs` dictionary
is modelled as a lookup function. -/
def resolveCategory (programs : Nat → Option String) (st : SessionType) : Option String :=
  jsOrOpt (programs st.programId) none

/-- JS `servicesPrices[st.Name] || null` (line 954): a zero (falsy) pre-tax
price becomes null. -/
def resolvePrice (prices : String → Option Rat) (st : SessionType) : Option Rat :=
  match prices st.name with
  | some p => if p = 0 then none else some p
  | none => none

/-- The description fallback chain (line 959):
`st.OnlineDescription || servicesDescriptions[st.Name] || st.Description || null`. -/
def resolveDescription (descs : String → Option String) (st : SessionType) : Option String :=
  jsOrOpt st.onlineDescription (jsOrOpt (descs st.name) (jsOrOpt st.description none))

/-- Pre-filter (lines 931-933): keep only `Type === 'Appointment'` or
`'Service'`. -/
def appointmentTypes (sts : List SessionType) : List SessionType :=
  sts.filter (fun st => st.typeField == "Appointment" || st.typeField == "Service")

/-- The map step of lines 951-975. -/
def enrich (programs : Nat → Option String) (prices : String → Option Rat)
    (descs : String → Option String) (st : SessionType) : EnrichedType :=
  { base := st
    categoryName := resolveCategory programs st
    price := resolvePrice prices st
    description := resolveDescription descs st }

/-- Lines 951-977: map then filter
`st.CategoryName && !excludedCategories.includes(st.CategoryName)`. -/
def enrichedTypes (programs : Nat → Option String) (prices : String → Option Rat)
    (descs : String → Option String) (sts : List SessionType) : List EnrichedType :=
  ((appointmentTypes sts).map (enrich programs prices descs)).filter
    (fun e =>
      match e.categoryName with
      | some c => c != "" && !(excludedCategories.contains c)
      | none => false)

/-- JS `[...new Set(l)]`: first-occurrence deduplication. -/
def dedupFirst (l : List String) : List String :=
  l.foldl (fun acc x => if acc.contains x then acc else acc ++ [x]) []

/-- Line 994: the deduplicated category names of the enriched list.  Every
retained entry has a category (the filter above), so `filterMap` equals the
JS `map`. -/
def finalCategories (programs : Nat → Option String) (prices : String → Option Rat)
    (descs : String → Option String) (sts : List SessionType) : List String :=
  dedupFirst ((enrichedTypes programs prices descs sts).filterMap (fun e => e.categoryName))

/-!
## Concrete instances used by the witnesses
-/

/-- A sample availability item with no staff. -/
def sampleItem : Availability := { staff := none, startDateTime := "", endDateTime := "" }

/-- Sample staff member A. -/
def staffA0 : Staff := { id := 1, firstName := "Ana", lastName := "A" }

/-- Sample staff member B. -/
def staffB0 : Staff := { id := 2, firstName := "Bea", lastName := "B" }

/-- Sample bookable-items result: 5 slots for staff A, then 3 for staff B. -/
def itemsEx : List Availability :=
  List.replicate 5 { staff := some staffA0, startDateTime := "s1", endDateTime := "e1" } ++
    List.replicate 3 { staff := some staffB0, startDateTime := "s2", endDateTime := "e2" }

/-- Sample client whose email matches `ana@spa.pa` case-insensitively. -/
def clientEx : Client := { id := 7, email := some "Ana@Spa.pa", firstName := "Ana", lastName := "A" }

/-- Sample upstream state for the client-login route. -/
def clientLoginUpEx : ClientLoginUpstream :=
  { tokenResult := Except.ok "tok", searchResult := Except.ok [clientEx] }

/-- Sample programs dictionary: program 1 is a real category, program 2 is
the generic "Appointment" category. -/
def progsEx : Nat → Option String :=
  fun pid => if pid = 1 then some "Facials" else if pid = 2 then some "Appointment" else none

/-- Sample price dictionary (empty). -/
def pricesEx : String → Option Rat := fun _ => none

/-- Sample description dictionary (empty). -/
def descsEx : String → Option String := fun _ => none

/-- Sample session types: one in a real category, one in the generic
"Appointment" category. -/
def stsEx : List SessionType :=
  [{ id := 10, name := "Facial Deluxe", typeField := "Appointment", programId := 1,
     onlineDescription := none, description := none },
   { id := 11, name := "Generic Appt", typeField := "Appointment", programId := 2,
     onlineDescription := none, description := none }]

/-- Sample valid register input. -/
def regInpEx : RegisterInput :=
  { firstName := some "Ana", lastName := some "A", email := some "ana@spa.pa" }

/-- Helper: a single `getAccessToken` call never issues more than one upstream login. -/
theorem getAccessToken_calls_le_one (st : TokenCache) (now : Int) (up : Except String String) :
    (getAccessToken st now up).2.2 ≤ 1 := by
  unfold getAccessToken
  cases h : cacheValid st now <;> cases up <;> simp

/-- Helper: a cache hit issues no upstream login. -/
theorem getAccessToken_calls_of_valid (st : TokenCache) (now : Int) (up : Except String String)
    (h : cacheValid st now = true) : (getAccessToken st now up).2.2 = 0 := by
  simp [getAccessToken, h]

/-- C1: if a cached (truthy) token and (truthy) expiry exist and `now` is before
the expiry minus the 5-minute buffer, `getAccessToken` returns the cached token
with no upstream call and an unchanged cache; on a cache miss with a successful
upstream exchange it issues one upstream login, returns the fresh token and
records expiry exactly `now + 24h`; consequently a second call within the
24h−5min window after a successful refresh issues no further login, so two
calls in the window issue at most one upstream login in total. -/
theorem getAccessToken_cache_contract
    (st : TokenCache) (now now2 : Int) (up up2 : Except String String)
    (t : String) (e : Int) :
    (st.cachedToken = some t → t ≠ "" → st.tokenExpiry = some e → e ≠ 0 →
      now < e - 300000 → getAccessToken st now up = (Except.ok t, st, 0))
    ∧ (∀ tok, cacheValid st now = false → up = Except.ok tok →
      getAccessToken st now up =
        (Except.ok tok,
         { cachedToken := some tok, tokenExpiry := some (now + 24 * 60 * 60 * 1000) }, 1))
    ∧ (∀ tok, up = Except.ok tok → tok ≠ "" → 0 ≤ now → now ≤ now2 →
      now2 < now + 24 * 60 * 60 * 1000 - 300000 →
      (getAccessToken st now up).2.2
        + (getAccessToken (getAccessToken st now up).2.1 now2 up2).2.2 ≤ 1) := by
  refine ⟨?_, ?_, ?_⟩
  · intro h1 h2 h3 h4 h5
    have hv : cacheValid st now = true := by
      simp [cacheValid, h1, h3, h2, h5]
      intro he
      exact absurd he h4
    simp [getAccessToken, hv, h1]
  · intro tok hv hup
    simp [getAccessToken, hv, hup]
  · intro tok hup ht h0 h12 h2w
    cases hv : cacheValid st now with
    | true =>
        rw [getAccessToken_calls_of_valid st now up hv]
        simpa using getAccessToken_calls_le_one (getAccessToken st now up).2.1 now2 up2
    | false =>
        have hst : getAccessToken st now up =
            (Except.ok tok,
             { cachedToken := some tok, tokenExpiry := some (now + 24 * 60 * 60 * 1000) }, 1) := by
          simp [getAccessToken, hv, hup]
        have hv2 : cacheValid
            { cachedToken := some tok, tokenExpiry := some (now + 24 * 60 * 60 * 1000) } now2 = true := by
          simp [cacheValid, ht]
          constructor
          · omega
          · omega
        rw [hst]
        show 1 + (getAccessToken
            { cachedToken := some tok, tokenExpiry := some (now + 24 * 60 * 60 * 1000) }
            now2 up2).2.2 ≤ 1
        rw [getAccessToken_calls_of_valid _ now2 up2 hv2]

/-- C1 witness: a concrete cache hit returns the cached token with zero upstream calls. -/
theorem getAccessToken_cache_contract_witness :
    getAccessToken { cachedToken := some "tokA", tokenExpiry := some 1000000 } 0
        (Except.ok "tokB") =
      (Except.ok "tokA", { cachedToken := some "tokA", tokenExpiry := some 1000000 }, 0) :=
  (getAccessToken_cache_contract
      { cachedToken := some "tokA", tokenExpiry := some 1000000 } 0 0
      (Except.ok "tokB") (Except.ok "tokB") "tokA" 1000000).1
    rfl (by decide) rfl (by decide) (by decide)

/-- C10: a failed refresh (cache miss, upstream error) rethrows the error and
leaves both the cached token and the recorded expiry exactly as they were. -/
theorem getAccessToken_failed_refresh_preserves_cache
    (st : TokenCache) (now : Int) (e : String)
    (h : cacheValid st now = false) :
    getAccessToken st now (Except.error e) = (Except.error e, st, 1) := by
  simp [getAccessToken, h]

/-- C10 witness: concrete failed refresh on the empty cache. -/
theorem getAccessToken_failed_refresh_preserves_cache_witness :
    cacheValid { cachedToken := none, tokenExpiry := none } 0 = false ∧
      getAccessToken { cachedToken := none, tokenExpiry := none } 0 (Except.error "boom") =
        (Except.error "boom", { cachedToken := none, tokenExpiry := none }, 1) :=
  ⟨by decide,
   getAccessToken_failed_refresh_preserves_cache
     { cachedToken := none, tokenExpiry := none } 0 "boom" (by decide)⟩

/-- C5: the forgot-password route responds 200 with `success: true` whether the
upstream password-reset call succeeds or fails, so the flag never distinguishes
the two outcomes. -/
theorem forgotPassword_always_success (up : Except String Unit) :
    (forgotPassword up).success = true ∧ (forgotPassword up).status = 200 ∧
      (forgotPassword up).success = (forgotPassword (Except.ok ())).success := by
  cases up <;> simp [forgotPassword]

/-- C2: against a simulated upstream that declares `TotalResults = 250` and
serves 100 items per page, the bookable-items fetch issues exactly 3 upstream
`bookableitems` calls and returns all 250 items, unchanged and in page-arrival
order; in general the loop stops as soon as the offset (= cumulative fetched
count) reaches the declared total or the 1000 safety ceiling, and a page-fetch
error stops pagination with the accumulated items returned. -/
theorem bookableItems_pagination
    (allItems : List Availability) (h : allItems.length = 250)
    (fetch : Nat → Except String (List Availability)) (total offset : Nat)
    (acc : List Availability) (e : String) :
    (bookableItemsCore (Except.ok (allItems.take 100, some 250))
        (fun off => Except.ok ((allItems.drop off).take 100))
      = Except.ok (allItems, 250, 3))
    ∧ (¬ (offset < total ∧ offset < 1000) → pageLoop fetch total acc offset = (acc, 0))
    ∧ (offset < total → offset < 1000 → fetch offset = Except.error e →
        pageLoop fetch total acc offset = (acc, 1)) := by
  refine ⟨?_, ?_, ?_⟩
  · have hl0 : (allItems.take 100).length = 100 := by simp [h]
    have hf1 : ((allItems.drop 100).take 100).length = 100 := by simp [h]
    have hf2 : ((allItems.drop 200).take 100).length = 50 := by simp [h]
    have e3 : pageLoop (fun off => Except.ok ((allItems.drop off).take 100)) 250
        (allItems.take 100 ++ (allItems.drop 100).take 100 ++ (allItems.drop 200).take 100)
        250 = (allItems.take 100 ++ (allItems.drop 100).take 100 ++ (allItems.drop 200).take 100, 0) := by
      rw [pageLoop]
      norm_num
    have e2 : pageLoop (fun off => Except.ok ((allItems.drop off).take 100)) 250
        (allItems.take 100 ++ (allItems.drop 100).take 100) 200
        = (allItems.take 100 ++ (allItems.drop 100).take 100 ++ (allItems.drop 200).take 100, 1) := by
      rw [pageLoop]
      rw [dif_pos (by norm_num : (200 : Nat) < 250 ∧ (200 : Nat) < 1000)]
      simp only [hf2, e3]
      norm_num
    have e1 : pageLoop (fun off => Except.ok ((allItems.drop off).take 100)) 250
        (allItems.take 100) 100
        = (allItems.take 100 ++ (allItems.drop 100).take 100 ++ (allItems.drop 200).take 100, 2) := by
      rw [pageLoop]
      rw [dif_pos (by norm_num : (100 : Nat) < 250 ∧ (100 : Nat) < 1000)]
      simp only [hf1, e2]
      norm_num
    have hall : allItems.take 100 ++ (allItems.drop 100).take 100 ++ (allItems.drop 200).take 100
        = allItems := by
      rw [← List.take_add, ← List.take_add]
      exact List.take_of_length_le (by omega)
    simp only [bookableItemsCore, totalOrLen, hl0]
    norm_num
    rw [e1, hall]
    exact ⟨rfl, rfl⟩
  · intro hc
    rw [pageLoop]
    exact dif_neg hc
  · intro h1 h2 hfe
    rw [pageLoop, dif_pos ⟨h1, h2⟩, hfe]

/-- Helper: the shape invariant is symmetric in the two staff members. -/
theorem StaffMapShape.symm {A B : Staff} {m : List StaffEntry} {ca cb : Nat}
    (h : StaffMapShape A B m ca cb) : StaffMapShape B A m cb ca := by
  rcases h with ⟨h1, h2, h3⟩ | ⟨h1, h2, sa, hsa, hm⟩ | ⟨h1, h2, sb, hsb, hm⟩
    | ⟨h1, h2, sa, sb, hsa, hsb, hm | hm⟩
  · exact Or.inl ⟨h2, h1, h3⟩
  · exact Or.inr (Or.inr (Or.inl ⟨h2, h1, sa, hsa, hm⟩))
  · exact Or.inr (Or.inl ⟨h2, h1, sb, hsb, hm⟩)
  · exact Or.inr (Or.inr (Or.inr ⟨h2, h1, sb, sa, hsb, hsa, Or.inr hm⟩))
  · exact Or.inr (Or.inr (Or.inr ⟨h2, h1, sb, sa, hsb, hsa, Or.inl hm⟩))

/-- Helper: adding a slot for `A` preserves the shape invariant and
increments the `A` count. -/
theorem staffMapShape_add_left (A B : Staff) (hAB : A.id ≠ B.id)
    (m : List StaffEntry) (ca cb : Nat) (slot : String × String)
    (h : StaffMapShape A B m ca cb) :
    StaffMapShape A B (addSlot m A slot) (ca + 1) cb := by
  have hBA : B.id ≠ A.id := fun hc => hAB hc.symm
  rcases h with ⟨hca, hcb, hm⟩ | ⟨hca, hcb, sa, hsa, hm⟩ | ⟨hca, hcb, sb, hsb, hm⟩
    | ⟨hca, hcb, sa, sb, hsa, hsb, hm | hm⟩
  · subst hm
    exact Or.inr (Or.inl ⟨by omega, hcb, [slot], by simp [hca], by simp [addSlot]⟩)
  · subst hm
    exact Or.inr (Or.inl ⟨by omega, hcb, sa ++ [slot], by simp [hsa], by simp [addSlot]⟩)
  · subst hm
    exact Or.inr (Or.inr (Or.inr
      ⟨by omega, hcb, [slot], sb, by simp [hca], hsb, Or.inr (by simp [addSlot, hBA])⟩))
  · subst hm
    exact Or.inr (Or.inr (Or.inr
      ⟨by omega, hcb, sa ++ [slot], sb, by simp [hsa], hsb, Or.inl (by simp [addSlot, hBA])⟩))
  · subst hm
    exact Or.inr (Or.inr (Or.inr
      ⟨by omega, hcb, sa ++ [slot], sb, by simp [hsa], hsb, Or.inr (by simp [addSlot, hBA])⟩))

/-- Helper: adding a slot for `B` preserves the shape invariant and
increments the `B` count. -/
theorem staffMapShape_add_right (A B : Staff) (hAB : A.id ≠ B.id)
    (m : List StaffEntry) (ca cb : Nat) (slot : String × String)
    (h : StaffMapShape A B m ca cb) :
    StaffMapShape A B (addSlot m B slot) ca (cb + 1) :=
  (staffMapShape_add_left B A (fun hc => hAB hc.symm) m cb ca slot h.symm).symm

/-- Helper: folding the staffMap construction over items whose staff is `A`
or `B` preserves the shape invariant, adding the per-staff item counts. -/
theorem staffFold_shape (A B : Staff) (hAB : A.id ≠ B.id) (items : List Availability) :
    ∀ (m : List StaffEntry) (ca cb : Nat),
      (∀ it ∈ items, it.staff = some A ∨ it.staff = some B) →
      StaffMapShape A B m ca cb →
      StaffMapShape A B
        (items.foldl
          (fun m it =>
            match it.staff with
            | none => m
            | some s => addSlot m s (it.startDateTime, it.endDateTime)) m)
        (ca + items.countP (fun it => it.staff == some A))
        (cb + items.countP (fun it => it.staff == some B)) := by
  induction items with
  | nil => intro m ca cb _ hm; simpa using hm
  | cons it rest ih =>
    intro m ca cb hall hm
    have hAB' : A ≠ B := fun hc => hAB (by rw [hc])
    have htail : ∀ x ∈ rest, x.staff = some A ∨ x.staff = some B :=
      fun x hx => hall x (List.mem_cons_of_mem it hx)
    rcases hall it (List.mem_cons_self it rest) with hs | hs
    · have hfold : (it :: rest).foldl
          (fun m it =>
            match it.staff with
            | none => m
            | some s => addSlot m s (it.startDateTime, it.endDateTime)) m
          = rest.foldl
          (fun m it =>
            match it.staff with
            | none => m
            | some s => addSlot m s (it.startDateTime, it.endDateTime))
          (addSlot m A (it.startDateTime, it.endDateTime)) := by
        simp [hs]
      have hCA : (it :: rest).countP (fun x => x.staff == some A)
          = rest.countP (fun x => x.staff == some A) + 1 := by
        simp [List.countP_cons, hs]
      have hCB : (it :: rest).countP (fun x => x.staff == some B)
          = rest.countP (fun x => x.staff == some B) := by
        simp [List.countP_cons, hs, hAB']
      rw [hfold, hCA, hCB]
      have harith : ca + (rest.countP (fun x => x.staff == some A) + 1)
          = (ca + 1) + rest.countP (fun x => x.staff == some A) := by omega
      rw [harith]
      exact ih _ (ca + 1) cb htail (staffMapShape_add_left A B hAB m ca cb _ hm)
    · have hfold : (it :: rest).foldl
          (fun m it =>
            match it.staff with
            | none => m
            | some s => addSlot m s (it.startDateTime, it.endDateTime)) m
          = rest.foldl
          (fun m it =>
            match it.staff with
            | none => m
            | some s => addSlot m s (it.startDateTime, it.endDateTime))
          (addSlot m B (it.startDateTime, it.endDateTime)) := by
        simp [hs]
      have hCA : (it :: rest).countP (fun x => x.staff == some A)
          = rest.countP (fun x => x.staff == some A) := by
        simp [List.countP_cons, hs]
        exact fun hc => hAB' hc.symm
      have hCB : (it :: rest).countP (fun x => x.staff == some B)
          = rest.countP (fun x => x.staff == some B) + 1 := by
        simp [List.countP_cons, hs]
      rw [hfold, hCA, hCB]
      have harith : cb + (rest.countP (fun x => x.staff == some B) + 1)
          = (cb + 1) + rest.countP (fun x => x.staff == some B) := by omega
      rw [harith]
      exact ih _ ca (cb + 1) htail (staffMapShape_add_right A B hAB m ca cb _ hm)

/-- C3: for any bookable-items result whose slots all carry staff `A` or
staff `B` (distinct ids), with 5 slots for `A` and 3 for `B`, the derived
staff-availability list has exactly two entries, carrying slot counts 5 and 3,
sorted in descending order of slot count. -/
theorem staff_dedup (items : List Availability) (A B : Staff) (hAB : A.id ≠ B.id)
    (hall : ∀ it ∈ items, it.staff = some A ∨ it.staff = some B)
    (hA : items.countP (fun it => it.staff == some A) = 5)
    (hB : items.countP (fun it => it.staff == some B) = 3) :
    ∃ sa sb : List (String × String), sa.length = 5 ∧ sb.length = 3 ∧
      staffWithAvailability items =
        [({ id := A.id, firstName := A.firstName, lastName := A.lastName, slots := sa }, 5),
         ({ id := B.id, firstName := B.firstName, lastName := B.lastName, slots := sb }, 3)] := by
  have hshape := staffFold_shape A B hAB items [] 0 0 hall (Or.inl ⟨rfl, rfl, rfl⟩)
  rw [hA, hB] at hshape
  norm_num at hshape
  have hbuild : buildStaffMap items
      = items.foldl
          (fun m it =>
            match it.staff with
            | none => m
            | some s => addSlot m s (it.startDateTime, it.endDateTime)) [] := rfl
  rcases hshape with ⟨hca, -, -⟩ | ⟨-, hcb, -⟩ | ⟨hca, -, -⟩
    | ⟨-, -, sa, sb, hsa, hsb, hm | hm⟩
  · omega
  · omega
  · omega
  · refine ⟨sa, sb, hsa, hsb, ?_⟩
    unfold staffWithAvailability
    rw [hbuild, hm]
    simp [sortBySlotsDesc, insertDesc, hsa, hsb]
  · refine ⟨sa, sb, hsa, hsb, ?_⟩
    unfold staffWithAvailability
    rw [hbuild, hm]
    simp [sortBySlotsDesc, insertDesc, hsa, hsb]

/-- C3 witness: a concrete list of 5 slots for staff A followed by 3 for
staff B yields the two-entry descending list. -/
theorem staff_dedup_witness :
    itemsEx.countP (fun it => it.staff == some staffA0) = 5 ∧
      ∃ sa sb : List (String × String), sa.length = 5 ∧ sb.length = 3 ∧
        staffWithAvailability itemsEx =
          [({ id := staffA0.id, firstName := staffA0.firstName,
              lastName := staffA0.lastName, slots := sa }, 5),
           ({ id := staffB0.id, firstName := staffB0.firstName,
              lastName := staffB0.lastName, slots := sb }, 3)] :=
  ⟨by decide,
   staff_dedup itemsEx staffA0 staffB0 (by decide) (by decide) (by decide) (by decide)⟩

/-- C2 witness: a concrete 250-item upstream is fetched in 3 calls. -/
theorem bookableItems_pagination_witness :
    (List.replicate 250 sampleItem).length = 250 ∧
      bookableItemsCore (Except.ok ((List.replicate 250 sampleItem).take 100, some 250))
          (fun off => Except.ok (((List.replicate 250 sampleItem).drop off).take 100))
        = Except.ok (List.replicate 250 sampleItem, 250, 3) :=
  ⟨by rw [List.length_replicate],
   (bookableItems_pagination (List.replicate 250 sampleItem) (by rw [List.length_replicate])
      (fun _ => Except.error "") 0 0 [] "").1⟩

/-- C4: the client-login route's outcome does not depend on the submitted
password — for the same username, token header and upstream state, any two
passwords produce the identical response — and, when the client search
succeeds, authentication succeeds exactly when some returned client has a
case-insensitive exact email match with the username. -/
theorem clientsLogin_password_independent
    (ut : Option String) (u p1 p2 : String) (up : ClientLoginUpstream)
    (clients : List Client) :
    clientsLogin ut u p1 up = clientsLogin ut u p2 up
    ∧ (up.searchResult = Except.ok clients → truthyS ut = true →
        ((clientsLogin ut u p1 up).success = true ↔
          ∃ c ∈ clients, emailMatches c u = true)) := by
  constructor
  · rfl
  · intro hs hut
    cases hf : clients.find? (fun c => emailMatches c u) with
    | some c =>
        have hc := List.mem_of_find?_eq_some hf
        have hm := List.find?_some hf
        have hred : clientsLogin ut u p1 up
            = { status := 200, success := true, client := some c } := by
          unfold clientsLogin
          rw [hut, hs]
          simp [hf]
        rw [hred]
        exact ⟨fun _ => ⟨c, hc, hm⟩, fun _ => rfl⟩
    | none =>
        have hred : clientsLogin ut u p1 up
            = { status := 401, success := false, client := none } := by
          unfold clientsLogin
          rw [hut, hs]
          simp [hf]
        rw [hred]
        constructor
        · intro hcon
          exact absurd hcon (by simp)
        · rintro ⟨c, hcmem, hcm⟩
          exact absurd hcm (by simpa using List.find?_eq_none.mp hf c hcmem)

/-- C4 witness: concrete instance with two different passwords and a matching
client. -/
theorem clientsLogin_password_independent_witness :
    clientsLogin (some "T") "ana@spa.pa" "pw1" clientLoginUpEx
        = clientsLogin (some "T") "ana@spa.pa" "pw2" clientLoginUpEx
    ∧ ((clientsLogin (some "T") "ana@spa.pa" "pw1" clientLoginUpEx).success = true ↔
        ∃ c ∈ [clientEx], emailMatches c "ana@spa.pa" = true) :=
  ⟨(clientsLogin_password_independent (some "T") "ana@spa.pa" "pw1" "pw2"
      clientLoginUpEx [clientEx]).1,
   (clientsLogin_password_independent (some "T") "ana@spa.pa" "pw1" "pw2"
      clientLoginUpEx [clientEx]).2 rfl (by decide)⟩

/-- C6 counterexample: on the `/api/clients` client-creation route, an
upstream failure whose message contains "409"/"duplicate" still maps to
HTTP 500, not 409. -/
theorem clients_conflict_counterexample :
    (addClientRoute (Except.error "Mindbody API returned 409: duplicate ClientEmail")).status
        = 500
    ∧ (addClientRoute (Except.error "Mindbody API returned 409: duplicate ClientEmail")).status
        ≠ 409 :=
  ⟨rfl, by decide⟩

/-- C6 amended: on the part_000 `/api/auth/register` route an upstream
failure whose lower-cased message contains "409", "duplicate" or
"already exists" maps to HTTP 409 with `success: false` and every other
upstream failure maps to 500, while the server.js `/api/clients` route maps
every upstream failure to HTTP 500. -/
theorem register_conflict_mapping (inp : RegisterInput) (msg : String)
    (h1 : truthyS inp.firstName = true) (h2 : truthyS inp.lastName = true)
    (h3 : truthyS inp.email = true) :
    ((strIncludes (lowerStr msg) "409" || strIncludes (lowerStr msg) "duplicate"
        || strIncludes (lowerStr msg) "already exists") = true →
      (register inp (Except.error msg)).1.status = 409 ∧
        (register inp (Except.error msg)).1.success = false)
    ∧ ((strIncludes (lowerStr msg) "409" || strIncludes (lowerStr msg) "duplicate"
        || strIncludes (lowerStr msg) "already exists") = false →
      (register inp (Except.error msg)).1.status = 500 ∧
        (register inp (Except.error msg)).1.success = false)
    ∧ (∀ m, (addClientRoute (Except.error m)).status = 500 ∧
        (addClientRoute (Except.error m)).success = false) := by
  refine ⟨?_, ?_, ?_⟩
  · intro hc
    simp [register, registerCatch, h1, h2, h3, hc]
  · intro hc
    simp [register, registerCatch, h1, h2, h3, hc]
  · intro m
    exact ⟨rfl, rfl⟩

/-- C6 witness: a concrete duplicate-email upstream failure maps to 409 on
the register route. -/
theorem register_conflict_mapping_witness :
    truthyS regInpEx.firstName = true ∧
      (register regInpEx (Except.error "Mindbody API returned 409")).1.status = 409 ∧
        (register regInpEx (Except.error "Mindbody API returned 409")).1.success = false :=
  ⟨by decide,
   (register_conflict_mapping regInpEx "Mindbody API returned 409"
      (by decide) (by decide) (by decide)).1 (by decide)⟩

/-- C7 counterexample: on the part_000 login route, an upstream credential
rejection (a non-2xx upstream status, which `callMindbodyAPI` turns into a
thrown error) is answered with HTTP 500, not 401. -/
theorem login_rejection_counterexample :
    (loginPart0 (some "user") (some "pass")
        (Except.error "Mindbody API returned 401")).1.status = 500
    ∧ (loginPart0 (some "user") (some "pass")
        (Except.error "Mindbody API returned 401")).1.status ≠ 401 :=
  ⟨rfl, by decide⟩

/-- C7 amended: the server.js login route answers every upstream failure with
401 `success: false` and passes a successful exchange's token through with
`success: true`; the part_000 login route answers a 2xx upstream body with a
truthy token with 200 `success: true` and that non-empty token, a 2xx body
without a truthy token with 401 `success: false`, and a thrown upstream error
(including a credential rejection) with 500. -/
theorem login_outcome_mapping (u p tok : Option String) (mo : Option String)
    (m t : String) :
    loginServer u p (Except.ok tok)
        = { status := 200, success := true, token := tok, message := "" }
    ∧ ((loginServer u p (Except.error mo)).status = 401 ∧
        (loginServer u p (Except.error mo)).success = false)
    ∧ (truthyS u = true → truthyS p = true → t ≠ "" →
        loginPart0 u p (Except.ok (some t))
          = ({ status := 200, success := true, token := some t,
               message := "Login successful" }, 1))
    ∧ (truthyS u = true → truthyS p = true → truthyS tok = false →
        (loginPart0 u p (Except.ok tok)).1.status = 401 ∧
          (loginPart0 u p (Except.ok tok)).1.success = false)
    ∧ (truthyS u = true → truthyS p = true →
        (loginPart0 u p (Except.error m)).1.status = 500 ∧
          (loginPart0 u p (Except.error m)).1.success = false) := by
  refine ⟨rfl, ⟨rfl, rfl⟩, ?_, ?_, ?_⟩
  · intro hu hp ht
    have ht2 : truthyS (some t) = true := by
      simp only [truthyS, bne_iff_ne, ne_eq, decide_eq_true_eq]
      exact ht
    simp [loginPart0, hu, hp, ht2]
  · intro hu hp htok
    simp [loginPart0, hu, hp, htok]
  · intro hu hp
    simp [loginPart0, hu, hp]

/-- C7 witness: a concrete successful upstream exchange on the part_000 login
route yields 200 with the non-empty token. -/
theorem login_outcome_mapping_witness :
    truthyS (some "u") = true ∧
      loginPart0 (some "u") (some "p") (Except.ok (some "tok123"))
        = ({ status := 200, success := true, token := some "tok123",
             message := "Login successful" }, 1) :=
  ⟨by decide,
   (login_outcome_mapping (some "u") (some "p") none none "" "tok123").2.2.1
     (by decide) (by decide) (by decide)⟩

/-- C8 counterexample: the bookable-items route does not enforce its
declared-required `sessionTypeIds`: with the parameter absent it still issues
the upstream call and answers 200, not 400. -/
theorem bookableItems_missing_param_counterexample :
    (bookableItemsRoute none (Except.ok ([], some 0)) (fun _ => Except.ok [])).1.status = 200
    ∧ (bookableItemsRoute none (Except.ok ([], some 0)) (fun _ => Except.ok [])).1.status ≠ 400
    ∧ (bookableItemsRoute none (Except.ok ([], some 0)) (fun _ => Except.ok [])).2 = 1 :=
  ⟨rfl, by decide, rfl⟩

/-- Helper: a successful bookable-items fetch reports at least one upstream
call. -/
theorem bookableItemsCore_calls_pos (first : Except String (List Availability × Option Nat))
    (fetch : Nat → Except String (List Availability))
    (res : List Availability × Nat × Nat)
    (h : bookableItemsCore first fetch = Except.ok res) : 1 ≤ res.2.2 := by
  cases first with
  | error e => simp [bookableItemsCore] at h
  | ok pr =>
      obtain ⟨items0, topt⟩ := pr
      simp only [bookableItemsCore] at h
      split at h
      · cases h
        simp
      · cases h
        simp

/-- C8 amended: the staff-with-availability route answers a missing
`sessionTypeIds` with 400 `success: false` and no upstream call, and the
part_000 login route answers a missing (falsy) username or password with 400
`success: false` and no upstream call; the bookable-items route, by contrast,
always issues at least one upstream call even with `sessionTypeIds` absent. -/
theorem missing_param_rejection
    (up : Except String (List Availability)) (upT : Except String (Option String))
    (u pw : Option String)
    (first : Except String (List Availability × Option Nat))
    (fetch : Nat → Except String (List Availability))
    (h : truthyS u = false ∨ truthyS pw = false) :
    staffWithAvailabilityRoute none up
        = ({ status := 400, success := false, message := "sessionTypeIds is required" }, 0)
    ∧ loginPart0 u pw upT
        = ({ status := 400, success := false, token := none,
             message := "Username and password required" }, 0)
    ∧ 1 ≤ (bookableItemsRoute none first fetch).2 := by
  refine ⟨rfl, ?_, ?_⟩
  · rcases h with h | h <;> simp [loginPart0, h]
  · cases hcore : bookableItemsCore first fetch with
    | error e => simp [bookableItemsRoute, hcore]
    | ok res =>
        have hpos := bookableItemsCore_calls_pos first fetch res hcore
        obtain ⟨a, b, c⟩ := res
        simp only [bookableItemsRoute, hcore]
        simpa using hpos

/-- C8 witness: concrete missing-parameter requests. -/
theorem missing_param_rejection_witness :
    (truthyS none = false ∨ truthyS (some "pw") = false) ∧
      staffWithAvailabilityRoute none (Except.ok [])
        = ({ status := 400, success := false, message := "sessionTypeIds is required" }, 0) :=
  ⟨Or.inl (by decide),
   (missing_param_rejection (Except.ok []) (Except.ok none) none (some "pw")
      (Except.ok ([], none)) (fun _ => Except.ok []) (Or.inl (by decide))).1⟩

/-- Helper: every element of `dedupFirst` applied over an accumulator comes
from the accumulator or the list. -/
theorem dedupFirst_mem_aux (l : List String) :
    ∀ (acc : List String) (x : String),
      x ∈ l.foldl (fun acc x => if acc.contains x then acc else acc ++ [x]) acc →
      x ∈ acc ∨ x ∈ l := by
  induction l with
  | nil => intro acc x h; exact Or.inl (by simpa using h)
  | cons y ys ih =>
    intro acc x h
    simp only [List.foldl_cons] at h
    rcases ih _ x h with hacc | hmem
    · by_cases hc : acc.contains y
      · rw [if_pos hc] at hacc
        exact Or.inl hacc
      · rw [if_neg hc] at hacc
        rcases List.mem_append.mp hacc with hl | hr
        · exact Or.inl hl
        · simp only [List.mem_singleton] at hr
          subst hr
          exact Or.inr (List.mem_cons_self x ys)
    · exact Or.inr (List.mem_cons_of_mem y hmem)

/-- C9: every entry kept in the enriched session-type list carries its
resolved category name, that name is never one of the four excluded generic
names, and consequently none of the four appears in the returned category
set. -/
theorem category_exclusion (programs : Nat → Option String)
    (prices : String → Option Rat) (descs : String → Option String)
    (sts : List SessionType) :
    (∀ e ∈ enrichedTypes programs prices descs sts,
        e.categoryName = resolveCategory programs e.base)
    ∧ (∀ e ∈ enrichedTypes programs prices descs sts, ∀ c,
        e.categoryName = some c → c ∉ excludedCategories)
    ∧ (∀ c ∈ finalCategories programs prices descs sts, c ∉ excludedCategories) := by
  have h2 : ∀ e ∈ enrichedTypes programs prices descs sts, ∀ c,
      e.categoryName = some c → c ∉ excludedCategories := by
    intro e he c hc hmem
    obtain ⟨-, hp⟩ := List.mem_filter.mp he
    rw [hc] at hp
    simp only [Bool.and_eq_true, Bool.not_eq_true'] at hp
    have hcontains := hp.2
    simp at hcontains
    exact hcontains hmem
  refine ⟨?_, h2, ?_⟩
  · intro e he
    obtain ⟨he', -⟩ := List.mem_filter.mp he
    obtain ⟨st, -, hst⟩ := List.mem_map.mp he'
    rw [← hst]
    rfl
  · intro c hc
    rcases dedupFirst_mem_aux _ [] c hc with hn | hmem
    · exact absurd hn (List.not_mem_nil c)
    · obtain ⟨e, he, hce⟩ := List.mem_filterMap.mp hmem
      exact h2 e he c hce

/-- C9 witness: with a concrete catalogue containing a session type in the
generic "Appointment" category, that name does not appear in the final
category list, while the real category does. -/
theorem category_exclusion_witness :
    finalCategories progsEx pricesEx descsEx stsEx = ["Facials"] ∧
      "Appointment" ∉ finalCategories progsEx pricesEx descsEx stsEx :=
  ⟨by decide,
   fun hmem =>
     absurd (by decide : "Appointment" ∈ excludedCategories)
       ((category_exclusion progsEx pricesEx descsEx stsEx).2.2 "Appointment" hmem)⟩

end Proxy
